import Mathlib

/-!
Shallow embedding of the tenant invitation and access-provisioning subsystem
of the healthcare-form-mvp repository.

The embedded modules are:
  * src/lib/inviteCodes.ts   (short-code invitations: generate, create,
    validate, redeem, URL utilities)
  * src/lib/security.ts      (token invitations: createInvitation and the
    capability helpers hasRole / canManageTeam)
  * src/components/sections/TeamManagementSection.tsx (handleDeleteInviteCode)
  * src/components/sections/InvitationAcceptanceSection.tsx
    (handleAcceptInvitation, the token redemption flow)

Modelling conventions:
  * Timestamps are integers (milliseconds since the epoch, as in JS `Date`).
    `setDate(getDate() + d)` is modelled as adding `d * 86400000` ms.
  * The persistence layer (Supabase/PostgREST) is an explicit record of
    tables (`DB`).  A `.single()` query returns a row exactly when the
    filter matches exactly one row; with zero or several matches PostgREST
    reports an error and supabase-js hands back `data = null`, which the
    source code treats the same as "no row".  This is captured by `single`.
  * The identity provider (supabase.auth) is modelled as a table of
    `AuthUser`s.  `signUp` fails with a duplicate-email auth error when an
    identity with the same email already exists, and otherwise creates the
    identity; this is the documented failure mode of the external service.
  * Remote writes that the source allows to fail (the profile insert and
    the mark-consumed / mark-accepted updates) take an explicit Boolean
    fault flag, so that partial-failure behaviour can be stated.
  * Fallible operations return `Except String α` carrying the exact error
    message thrown by the source; stateful ones also return the resulting
    `DB` (on an error before any write, the store is returned unchanged).
-/

namespace HealthcareMVP

/-- Decidable equality for `Except`, so results of the fallible operations
can be evaluated on concrete inputs. -/
instance exceptDecEq {ε α : Type} [DecidableEq ε] [DecidableEq α] :
    DecidableEq (Except ε α) := fun x y =>
  match x, y with
  | Except.error e, Except.error f =>
    if h : e = f then isTrue (by subst h; rfl)
    else isFalse (fun c => h (Except.error.inj c))
  | Except.ok a, Except.ok b =>
    if h : a = b then isTrue (by subst h; rfl)
    else isFalse (fun c => h (Except.ok.inj c))
  | Except.error _, Except.ok _ => isFalse (fun c => Except.noConfusion c)
  | Except.ok _, Except.error _ => isFalse (fun c => Except.noConfusion c)

/-- `user_role` enum: `'owner' | 'manager' | 'staff'` (database.types.ts). -/
inductive UserRole where
  | owner
  | manager
  | staff
deriving DecidableEq, Repr

/-- Row of the `businesses` table (only the columns the subsystem reads). -/
structure BusinessRow where
  id : Nat
  name : String
deriving DecidableEq, Repr

/-- Row of the `users` table (columns used by the invitation subsystem).
`business_id` is nullable in the schema. -/
structure UserRow where
  id : Nat
  email : String
  business_id : Option Nat
  role : UserRole
  first_name : String
  last_name : String
  is_active : Bool
deriving DecidableEq, Repr

/-- Row of the `invite_codes` table (short-code invitations). -/
structure InviteCodeRow where
  id : Nat
  code : String
  role : UserRole
  email : Option String
  business_id : Nat
  created_by : Option Nat
  used_by : Option Nat
  used_at : Option Int
  expires_at : Int
  created_at : Int
deriving DecidableEq, Repr

/-- Row of the `user_invitations` table (token invitations). -/
structure InvitationRow where
  id : Nat
  business_id : Nat
  email : String
  role : UserRole
  invited_by : Option Nat
  token : String
  expires_at : Int
  accepted_at : Option Int
  created_at : Int
deriving DecidableEq, Repr

/-- An identity held by the external auth provider (supabase.auth). -/
structure AuthUser where
  id : Nat
  email : String
deriving DecidableEq, Repr

/-- The store state: the three relations the subsystem touches plus the
identity-provider table. -/
structure DB where
  businesses : List BusinessRow
  users : List UserRow
  inviteCodes : List InviteCodeRow
  invitations : List InvitationRow
  authUsers : List AuthUser
deriving DecidableEq, Repr

/-- supabase-js `.single()`: the row when the filtered result is exactly one
row; `data = null` (here `none`) when zero or several rows match, because
PostgREST then answers with an error and no data. -/
def single {α : Type} (rows : List α) : Option α :=
  match rows with
  | [row] => some row
  | _ => none

/-- JS `String.prototype.toUpperCase` restricted to ASCII, which is all the
subsystem ever feeds it (codes, query parameters, email addresses). -/
def jsToUpper (s : String) : String :=
  String.mk (s.data.map Char.toUpper)

/-- JS `String.prototype.toLowerCase` restricted to ASCII. -/
def jsToLower (s : String) : String :=
  String.mk (s.data.map Char.toLower)

/-- One calendar day as modelled milliseconds (`setDate` arithmetic). -/
def msPerDay : Int := 86400000

/-! ### Credential generator and format check (inviteCodes.ts) -/

/-- `isValidInviteCodeFormat`: the regex `^[A-Z]\x7b4\x7d[0-9]\x7b4\x7d$`
applied to `code.toUpperCase()` — exactly 8 characters, 4 letters then
4 digits. -/
def isValidInviteCodeFormat (code : String) : Bool :=
  let cs := (jsToUpper code).toList
  cs.length == 8
    && (cs.take 4).all (fun c => 'A' ≤ c && c ≤ 'Z')
    && (cs.drop 4).all (fun c => '0' ≤ c && c ≤ '9')

/-- The letter alphabet of `generateCode`. -/
def codeLetters : List Char := "ABCDEFGHIJKLMNOPQRSTUVWXYZ".toList

/-- The digit alphabet of `generateCode`. -/
def codeNumbers : List Char := "0123456789".toList

/-- `generateCode`: 4 random letters followed by 4 random numbers.  The
random source `random` models successive results of `Math.random()`
(rationals in `[0, 1)`); `letters[Math.floor(Math.random() * 26)]` becomes
`codeLetters.getD ⌊random i * 26⌋.toNat`. -/
def generateCode (random : Nat → ℚ) : String :=
  let letterPart :=
    (List.range 4).map (fun i => codeLetters.getD (Int.toNat ⌊random i * 26⌋) 'A')
  let numberPart :=
    (List.range 4).map (fun i => codeNumbers.getD (Int.toNat ⌊random (4 + i) * 10⌋) '0')
  String.mk (letterPart ++ numberPart)

/-! ### URL utilities (inviteCodes.ts) -/

/-- `URLSearchParams.get`: the value of the first parameter with the given
key, or null. -/
def searchParamsGet (params : List (String × String)) (key : String) : Option String :=
  (params.find? (fun p => p.1 == key)).map (fun p => p.2)

/-- `extractInviteCodeFromUrl`.  The URL is modelled as its parsed query
parameters; `none` stands for a string the `URL` constructor rejects (the
`catch` branch returns null).  `inviteParam ? inviteParam.toUpperCase() : null`
— note JS truthiness maps an empty parameter value to null. -/
def extractInviteCodeFromUrl (url : Option (List (String × String))) : Option String :=
  match url with
  | none => none
  | some params =>
    match searchParamsGet params "invite" with
    | none => none
    | some value => if value == "" then none else some (jsToUpper value)

/-! ### Identity provider boundary (supabase.auth) -/

/-- `supabase.auth.signUp`: creates a fresh identity, or fails with the
provider's documented duplicate-email error when an identity with this
email already exists. -/
def signUp (db : DB) (email : String) (newIdentityId : Nat) :
    Except String (AuthUser × DB) :=
  if db.authUsers.any (fun u => u.email == email) then
    Except.error "User already registered"
  else
    let u : AuthUser := { id := newIdentityId, email := email }
    Except.ok (u, { db with authUsers := db.authUsers ++ [u] })

/-! ### Short-code invitations (inviteCodes.ts) -/

/-- The uniqueness-retry loop of `createInviteCode`: generate a candidate,
keep it when no `invite_codes` row has that code, otherwise try again;
after `maxAttempts` (10) colliding candidates the loop throws.  `random`
is the `Math.random()` stream; attempt `a` consumes values `8a .. 8a+7`. -/
def findFreshCode (db : DB) (random : Nat → ℚ) : Nat → Nat → Except String String
  | _, 0 => Except.error "Failed to generate unique invite code"
  | attempt, remaining + 1 =>
    let code := generateCode (fun j => random (8 * attempt + j))
    if (single (db.inviteCodes.filter (fun row => row.code == code))).isNone then
      Except.ok code
    else
      findFreshCode db random (attempt + 1) remaining

/-- `createInviteCode(businessId, role, email?, expiryDays = 7)`.
`auth` is the current identity (`supabase.auth.getUser()`), `newRowId` the
id the store assigns to the inserted row, `now` the creation instant
(also the `created_at` column default). -/
def createInviteCode (db : DB) (auth : Option AuthUser) (businessId : Nat)
    (role : UserRole) (email : Option String) (expiryDays : Int)
    (random : Nat → ℚ) (newRowId : Nat) (now : Int) :
    Except String String × DB :=
  match auth with
  | none => (Except.error "Not authenticated", db)
  | some user =>
    match single (db.users.filter (fun r => r.id == user.id)) with
    | none => (Except.error "Unauthorized: Cannot create codes for this business", db)
    | some userProfile =>
      if userProfile.business_id != some businessId then
        (Except.error "Unauthorized: Cannot create codes for this business", db)
      else if !(userProfile.role == UserRole.owner || userProfile.role == UserRole.manager) then
        (Except.error "Unauthorized: Only owners and managers can create invite codes", db)
      else
        match findFreshCode db random 0 10 with
        | Except.error e => (Except.error e, db)
        | Except.ok code =>
          let row : InviteCodeRow := {
            id := newRowId, code := code, role := role, email := email,
            business_id := businessId, created_by := some user.id,
            used_by := none, used_at := none,
            expires_at := now + expiryDays * msPerDay, created_at := now }
          (Except.ok code, { db with inviteCodes := db.inviteCodes ++ [row] })

/-- The `validateInviteCode` lookup:
`from('invite_codes').select('*, businesses!inner(name)').eq('code',
code.toUpperCase()).single()` — the inner join drops rows whose business
does not exist, then `.single()` applies. -/
def lookupInviteCode (db : DB) (code : String) : Option InviteCodeRow :=
  single ((db.inviteCodes.filter (fun r => r.code == jsToUpper code)).filter
    (fun r => db.businesses.any (fun b => b.id == r.business_id)))

/-- `validateInviteCode(code)`: format check, existence lookup, used check,
expiry check (strict `now > expiresAt`), in that order. -/
def validateInviteCode (db : DB) (code : String) (now : Int) :
    Except String InviteCodeRow :=
  if !isValidInviteCodeFormat code then
    Except.error "Invalid invite code format. Codes must be 8 characters (4 letters + 4 numbers)"
  else
    match lookupInviteCode db code with
    | none => Except.error "Invalid invite code"
    | some inviteCode =>
      if inviteCode.used_at.isSome then
        Except.error "This invite code has already been used"
      else if now > inviteCode.expires_at then
        Except.error "This invite code has expired"
      else
        Except.ok inviteCode

/-- The email-binding condition of `useInviteCode`:
`inviteCode.email && inviteCode.email.toLowerCase() !== userData.email.toLowerCase()`.
JS truthiness makes a null or empty bound email skip the check. -/
def emailMismatchCheck (boundEmail : Option String) (givenEmail : String) : Bool :=
  match boundEmail with
  | some be => be != "" && jsToLower be != jsToLower givenEmail
  | none => false

/-- The recipient details passed to `useInviteCode`. -/
structure UserData where
  email : String
  password : String
  firstName : String
  lastName : String
deriving DecidableEq, Repr

/-- `useInviteCode(code, userData)`: validate, email-binding check,
existing-account check, identity sign-up, profile INSERT, best-effort
mark-used update.  `profileInsertFails` and `markUsedFails` inject the
remote-write failures the source handles; the trailing auto sign-in only
logs its errors and touches no modelled state, so it is omitted.  Returns
the result (`userId`, `businessId` on success) together with the store as
left behind, including after partial failures. -/
def useInviteCode (db : DB) (code : String) (userData : UserData)
    (newIdentityId : Nat) (now : Int)
    (profileInsertFails : Bool) (markUsedFails : Bool) :
    Except String (Nat × Nat) × DB :=
  match validateInviteCode db code now with
  | Except.error e => (Except.error e, db)
  | Except.ok inviteCode =>
    if emailMismatchCheck inviteCode.email userData.email then
      (Except.error "This invite code is for a different email address", db)
    else if (single (db.users.filter (fun r => r.email == userData.email))).isSome then
      (Except.error "An account with this email already exists", db)
    else
      match signUp db userData.email newIdentityId with
      | Except.error msg => (Except.error ("Account creation failed: " ++ msg), db)
      | Except.ok (authUser, db1) =>
        -- plain INSERT into `users`: a primary-key conflict or an injected
        -- transient fault makes it fail
        if profileInsertFails || db1.users.any (fun r => r.id == authUser.id) then
          (Except.error "Profile creation failed: insert error", db1)
        else
          let profile : UserRow := {
            id := authUser.id, email := userData.email,
            business_id := some inviteCode.business_id,
            role := inviteCode.role,
            first_name := userData.firstName, last_name := userData.lastName,
            is_active := true }
          let db2 := { db1 with users := db1.users ++ [profile] }
          if markUsedFails then
            -- update failure is logged as non-critical; the call still succeeds
            (Except.ok (authUser.id, inviteCode.business_id), db2)
          else
            let db3 := { db2 with inviteCodes := db2.inviteCodes.map (fun r =>
              if r.id == inviteCode.id then
                { r with used_by := some authUser.id, used_at := some now }
              else r) }
            (Except.ok (authUser.id, inviteCode.business_id), db3)

/-! ### Team management (TeamManagementSection.tsx) -/

/-- `handleDeleteInviteCode(codeId)`:
`from('invite_codes').delete().eq('id', codeId).eq('business_id', businessId)`.
A delete whose predicate matches zero rows is not an error in PostgREST,
so the handler reaches its success notification either way. -/
def handleDeleteInviteCode (db : DB) (codeId : Nat) (businessId : Nat) :
    Except String Unit × DB :=
  let remaining := db.inviteCodes.filter
    (fun r => !(r.id == codeId && r.business_id == businessId))
  (Except.ok (), { db with inviteCodes := remaining })

/-! ### Token invitations (security.ts, InvitationAcceptanceSection.tsx) -/

/-- `getCurrentUserProfile()`: the caller row joined with
`businesses!inner`, so a missing or null business yields null. -/
def getCurrentUserProfile (db : DB) (auth : Option AuthUser) : Option UserRow :=
  match auth with
  | none => none
  | some user =>
    single ((db.users.filter (fun r => r.id == user.id)).filter
      (fun r =>
        match r.business_id with
        | some b => db.businesses.any (fun biz => biz.id == b)
        | none => false))

/-- `hasRole(userRole, requiredRoles)`. -/
def hasRole (userRole : UserRole) (requiredRoles : List UserRole) : Bool :=
  requiredRoles.contains userRole

/-- `canManageTeam(userRole)`. -/
def canManageTeam (userRole : UserRole) : Bool :=
  hasRole userRole [UserRole.owner, UserRole.manager]

/-- The pending-invitation filter of `createInvitation`:
`business_id = b AND email = e AND accepted_at IS NULL AND expires_at > now`. -/
def pendingInvitations (db : DB) (businessId : Nat) (email : String) (now : Int) :
    List InvitationRow :=
  db.invitations.filter (fun r =>
    r.business_id == businessId && r.email == email
      && r.accepted_at.isNone && decide (now < r.expires_at))

set_option linter.unusedVariables false in
/-- `createInvitation(businessId, email, role, firstName, lastName)`.
`token` stands for the generated `crypto.randomUUID() + Date.now()`
string; `firstName`/`lastName` are accepted but never persisted, exactly
as in the source. -/
def createInvitation (db : DB) (auth : Option AuthUser) (businessId : Nat)
    (email : String) (role : UserRole) (firstName lastName : String)
    (token : String) (newRowId : Nat) (now : Int) :
    Except String (String × Int) × DB :=
  match getCurrentUserProfile db auth with
  | none => (Except.error "Unauthorized: Cannot create invitations", db)
  | some profile =>
    if !(profile.business_id == some businessId && canManageTeam profile.role) then
      (Except.error "Unauthorized: Cannot create invitations", db)
    else if (single (db.users.filter (fun r => r.email == email))).isSome then
      (Except.error "A user with this email already exists", db)
    else if (single (pendingInvitations db businessId email now)).isSome then
      (Except.error "An invitation has already been sent to this email", db)
    else
      let expiresAt := now + 7 * msPerDay
      let row : InvitationRow := {
        id := newRowId, business_id := businessId, email := email, role := role,
        invited_by := some profile.id, token := token,
        expires_at := expiresAt, accepted_at := none, created_at := now }
      (Except.ok (token, expiresAt), { db with invitations := db.invitations ++ [row] })

/-- The acceptance-form values of `handleAcceptInvitation` (the email comes
from the loaded invitation, not from the form). -/
structure AcceptanceForm where
  firstName : String
  lastName : String
  password : String
deriving DecidableEq, Repr

/-- `handleAcceptInvitation(values)` of the token acceptance flow:
sign up with the invitation email, re-fetch the invitation business id,
INSERT the profile (`is_active` is left to its column default `true`),
then update `accepted_at` — and `if (updateError) throw updateError`, so
unlike the short-code flow this failure aborts the call. -/
def handleAcceptInvitation (db : DB) (invitationId : Nat)
    (invitationEmail : String) (invitationRole : UserRole)
    (values : AcceptanceForm) (newIdentityId : Nat) (now : Int)
    (profileInsertFails : Bool) (markAcceptedFails : Bool) :
    Except String Unit × DB :=
  match signUp db invitationEmail newIdentityId with
  | Except.error msg => (Except.error msg, db)
  | Except.ok (authUser, db1) =>
    match single (db1.invitations.filter (fun r => r.id == invitationId)) with
    | none => (Except.error "Invitation not found", db1)
    | some inviteDetails =>
      if profileInsertFails || db1.users.any (fun r => r.id == authUser.id) then
        (Except.error "profile insert error", db1)
      else
        let profile : UserRow := {
          id := authUser.id, email := invitationEmail,
          business_id := some inviteDetails.business_id,
          role := invitationRole,
          first_name := values.firstName, last_name := values.lastName,
          is_active := true }
        let db2 := { db1 with users := db1.users ++ [profile] }
        if markAcceptedFails then
          (Except.error "accepted_at update error", db2)
        else
          let db3 := { db2 with invitations := db2.invitations.map (fun r =>
            if r.id == invitationId then { r with accepted_at := some now } else r) }
          (Except.ok (), db3)

/-! ### Concrete fixtures

Small concrete stores used to evaluate the operations at specific inputs
(counterexamples and witnesses). -/

/-- A tenant. -/
def acmeBiz : BusinessRow := { id := 7, name := "Acme Care" }

/-- A second tenant. -/
def betaBiz : BusinessRow := { id := 8, name := "Beta Clinic" }

/-- The identity of the first owner of `acmeBiz`. -/
def ownerAuth : AuthUser := { id := 1, email := "owner@acme.example" }

/-- The member row of the first owner of `acmeBiz`. -/
def ownerRow : UserRow :=
  { id := 1, email := "owner@acme.example", business_id := some 7,
    role := UserRole.owner, first_name := "Olu", last_name := "Owner",
    is_active := true }

/-- A store holding the two tenants and the owner, with no invitations. -/
def baseDB : DB :=
  { businesses := [acmeBiz, betaBiz], users := [ownerRow],
    inviteCodes := [], invitations := [], authUsers := [ownerAuth] }

/-- A pending staff short code of `acmeBiz` with no bound email,
expiring at time 1000. -/
def staffCodeRow : InviteCodeRow :=
  { id := 11, code := "ABCD1234", role := UserRole.staff, email := none,
    business_id := 7, created_by := some 1, used_by := none, used_at := none,
    expires_at := 1000, created_at := 500 }

/-- A pending staff short code of `acmeBiz` bound to `a@x.com`. -/
def boundCodeRow : InviteCodeRow :=
  { id := 12, code := "EFGH5678", role := UserRole.staff, email := some "a@x.com",
    business_id := 7, created_by := some 1, used_by := none, used_at := none,
    expires_at := 1000, created_at := 500 }

/-- `baseDB` extended with `staffCodeRow`. -/
def dbStaffCode : DB := { baseDB with inviteCodes := [staffCodeRow] }

/-- `baseDB` extended with `boundCodeRow`. -/
def dbBoundCode : DB := { baseDB with inviteCodes := [boundCodeRow] }

/-- A pending token invitation of `acmeBiz` for `invitee@x.com`,
expiring at time 1000. -/
def tokenInviteRow : InvitationRow :=
  { id := 21, business_id := 7, email := "invitee@x.com", role := UserRole.staff,
    invited_by := some 1, token := "tok-21", expires_at := 1000,
    accepted_at := none, created_at := 500 }

/-- A second pending token invitation for the same tenant and email. -/
def tokenInviteRow2 : InvitationRow :=
  { id := 22, business_id := 7, email := "invitee@x.com", role := UserRole.staff,
    invited_by := some 1, token := "tok-22", expires_at := 1000,
    accepted_at := none, created_at := 600 }

/-- `baseDB` extended with the single pending token invitation. -/
def dbOneInvite : DB := { baseDB with invitations := [tokenInviteRow] }

/-- `baseDB` extended with two pending token invitations for the same
tenant and email. -/
def dbTwoInvites : DB := { baseDB with invitations := [tokenInviteRow, tokenInviteRow2] }

/-- The recipient redeeming `staffCodeRow`. -/
def newUserData : UserData :=
  { email := "new@x.com", password := "Password1", firstName := "Nia", lastName := "New" }

/-- The state after a redemption of `staffCodeRow` by `newUserData` whose
identity creation succeeded but whose profile insert failed: the identity
exists, no member row does, the code is still pending
(ProfileProvisioningFailed). -/
def dbOrphanIdentity : DB :=
  { dbStaffCode with authUsers := dbStaffCode.authUsers ++ [{ id := 2, email := "new@x.com" }] }

/-- The acceptance form used in concrete runs of the token flow. -/
def acceptForm : AcceptanceForm :=
  { firstName := "Fey", lastName := "Lin", password := "Password1" }

/-! ### Helper lemmas -/

/-- Evaluation of the generator on the all-zero random stream. -/
theorem generateCode_zero_eval (f : Nat → ℚ) (hf : ∀ i, f i = 0) :
    generateCode f = "AAAA0000" := by
  simp [generateCode, hf, codeLetters, codeNumbers]

/-- One unfolding of the uniqueness-retry loop. -/
theorem findFreshCode_succ (db : DB) (random : Nat → ℚ) (attempt remaining : Nat) :
    findFreshCode db random attempt (remaining + 1) =
      (let code := generateCode (fun j => random (8 * attempt + j));
       if (single (db.inviteCodes.filter (fun row => row.code == code))).isNone then
         Except.ok code
       else
         findFreshCode db random (attempt + 1) remaining) := rfl

/-- On a store with no invite codes, the all-zero stream immediately yields
`AAAA0000`. -/
theorem findFreshCode_baseDB_zero :
    findFreshCode baseDB (fun _ => 0) 0 10 = Except.ok "AAAA0000" := by
  rw [show (10 : Nat) = 9 + 1 from rfl, findFreshCode_succ,
    generateCode_zero_eval _ (fun i => rfl)]
  decide

/-- Evaluation of `createInviteCode` on the fixture store with the
all-zero random stream, for any target role, bound email, expiry and
creation time. -/
theorem createInviteCode_baseDB_eval (role : UserRole) (email : Option String)
    (expiryDays : Int) (newRowId : Nat) (now : Int) :
    createInviteCode baseDB (some ownerAuth) 7 role email expiryDays
        (fun _ => 0) newRowId now =
      (Except.ok "AAAA0000", { baseDB with inviteCodes :=
        [{ id := newRowId, code := "AAAA0000", role := role, email := email,
           business_id := 7, created_by := some 1, used_by := none, used_at := none,
           expires_at := now + expiryDays * msPerDay, created_at := now }] }) := by
  have h1 : single (baseDB.users.filter (fun r => r.id == ownerAuth.id)) =
      some ownerRow := by decide
  have h2 : (ownerRow.business_id != some 7) = false := by decide
  have h3 : (ownerRow.role == UserRole.owner || ownerRow.role == UserRole.manager) = true := by
    decide
  simp only [createInviteCode, h1, h2, h3, findFreshCode_baseDB_zero,
    Bool.not_true, Bool.false_eq_true, if_false]
  simp [baseDB, ownerAuth]

/-- For `0 ≤ q < 1` the JS index expression `Math.floor(q * n)` lands
inside an `n`-element alphabet. -/
theorem floor_index_lt (q : ℚ) (n : Nat) (h1 : q < 1) (hn : 0 < n) :
    Int.toNat ⌊q * (n : ℚ)⌋ < n := by
  have hlt : ⌊q * (n : ℚ)⌋ < (n : Int) := by
    apply Int.floor_lt.mpr
    push_cast
    calc q * (n : ℚ) < 1 * (n : ℚ) :=
          mul_lt_mul_of_pos_right h1 (by exact_mod_cast hn)
    _ = (n : ℚ) := one_mul _
  omega

/-! ### C9 -/

/-- C9: every string returned by the short-code generator has length
exactly 8, its first 4 characters are uppercase letters in A–Z and its
last 4 characters are digits in 0–9, provided the random source behaves
like `Math.random()` (values in `[0, 1)`). -/
theorem generateCode_format (random : Nat → ℚ)
    (h : ∀ i, 0 ≤ random i ∧ random i < 1) :
    (generateCode random).length = 8 ∧
    (((generateCode random).toList.take 4).all (fun c => 'A' ≤ c && c ≤ 'Z')) = true ∧
    (((generateCode random).toList.drop 4).all (fun c => '0' ≤ c && c ≤ '9')) = true := by
  have hletters : ∀ i, codeLetters.getD (Int.toNat ⌊random i * 26⌋) 'A' ∈ codeLetters := by
    intro i
    have hi : Int.toNat ⌊random i * 26⌋ < codeLetters.length := by
      have := floor_index_lt (random i) 26 (h i).2 (by norm_num)
      simpa [codeLetters] using this
    rw [List.getD_eq_getElem codeLetters 'A' hi]
    exact List.getElem_mem hi
  have hnumbers : ∀ i, codeNumbers.getD (Int.toNat ⌊random i * 10⌋) '0' ∈ codeNumbers := by
    intro i
    have hi : Int.toNat ⌊random i * 10⌋ < codeNumbers.length := by
      have := floor_index_lt (random i) 10 (h i).2 (by norm_num)
      simpa [codeNumbers] using this
    rw [List.getD_eq_getElem codeNumbers '0' hi]
    exact List.getElem_mem hi
  have hlen : ((List.range 4).map
      (fun i => codeLetters.getD (Int.toNat ⌊random i * 26⌋) 'A')).length = 4 := by
    simp
  refine ⟨?_, ?_, ?_⟩
  · simp [generateCode, String.length]
  · rw [List.all_eq_true]
    intro c hc
    have hc4 : c ∈ (List.range 4).map
        (fun i => codeLetters.getD (Int.toNat ⌊random i * 26⌋) 'A') := by
      have : (generateCode random).toList.take 4 = (List.range 4).map
          (fun i => codeLetters.getD (Int.toNat ⌊random i * 26⌋) 'A') := by
        conv_lhs => rw [show (4 : Nat) = ((List.range 4).map
          (fun i => codeLetters.getD (Int.toNat ⌊random i * 26⌋) 'A')).length from hlen.symm]
        simp [generateCode, List.take_left]
      rwa [this] at hc
    obtain ⟨i, _, hie⟩ := List.mem_map.mp hc4
    have hmem := hletters i
    rw [hie] at hmem
    have hall : codeLetters.all (fun c => 'A' ≤ c && c ≤ 'Z') = true := by decide
    exact List.all_eq_true.mp hall c hmem
  · rw [List.all_eq_true]
    intro c hc
    have hc4 : c ∈ (List.range 4).map
        (fun i => codeNumbers.getD (Int.toNat ⌊random (4 + i) * 10⌋) '0') := by
      have : (generateCode random).toList.drop 4 = (List.range 4).map
          (fun i => codeNumbers.getD (Int.toNat ⌊random (4 + i) * 10⌋) '0') := by
        conv_lhs => rw [show (4 : Nat) = ((List.range 4).map
          (fun i => codeLetters.getD (Int.toNat ⌊random i * 26⌋) 'A')).length from hlen.symm]
        simp [generateCode, List.drop_left]
      rwa [this] at hc
    obtain ⟨i, _, hie⟩ := List.mem_map.mp hc4
    have hmem := hnumbers (4 + i)
    rw [hie] at hmem
    have hall : codeNumbers.all (fun c => '0' ≤ c && c ≤ '9') = true := by decide
    exact List.all_eq_true.mp hall c hmem

/-- Witness for C9 at the all-zero random stream. -/
theorem generateCode_format_witness :
    (generateCode (fun _ => 0)).length = 8 ∧
    (((generateCode (fun _ => 0)).toList.take 4).all (fun c => 'A' ≤ c && c ≤ 'Z')) = true ∧
    (((generateCode (fun _ => 0)).toList.drop 4).all (fun c => '0' ≤ c && c ≤ '9')) = true :=
  generateCode_format (fun _ => 0) (fun _ => by norm_num)

/-! ### C7 -/

/-- C7 counterexample: the URL parameter `abcd-1234` (the hyphenated
display form) is extracted as `ABCD-1234` — uppercased but with the
hyphen NOT stripped — which is not the claimed `ABCD1234` and fails the
format check, so validation rejects it as malformed. -/
theorem extract_hyphen_counterexample :
    extractInviteCodeFromUrl (some [("invite", "abcd-1234")]) = some "ABCD-1234" ∧
    some "ABCD-1234" ≠ some "ABCD1234" ∧
    isValidInviteCodeFormat "ABCD-1234" = false ∧
    validateInviteCode dbStaffCode "ABCD-1234" 900 = Except.error
      "Invalid invite code format. Codes must be 8 characters (4 letters + 4 numbers)" :=
  ⟨by decide, by decide, by decide, by decide⟩

/-- C7 amended: the extracted code is the parameter value uppercased with
NO separator stripping; a link carrying the bare code `abcd1234` yields
`ABCD1234`, which passes the format check, while the hyphenated display
form `abcd-1234` yields `ABCD-1234`, which fails it. -/
theorem extract_uppercases_only
    (params : List (String × String)) (v : String)
    (hv : searchParamsGet params "invite" = some v) (hne : v ≠ "") :
    extractInviteCodeFromUrl (some params) = some (jsToUpper v) ∧
    extractInviteCodeFromUrl (some [("invite", "abcd1234")]) = some "ABCD1234" ∧
    isValidInviteCodeFormat "ABCD1234" = true ∧
    extractInviteCodeFromUrl (some [("invite", "abcd-1234")]) = some "ABCD-1234" ∧
    isValidInviteCodeFormat "ABCD-1234" = false := by
  refine ⟨?_, by decide, by decide, by decide, by decide⟩
  have hvb : (v == "") = false := beq_eq_false_iff_ne.mpr hne
  simp [extractInviteCodeFromUrl, hv, hvb]

/-- Witness for C7 amended at a concrete parameter list. -/
theorem extract_uppercases_only_witness :
    extractInviteCodeFromUrl (some [("invite", "wxyz9876")]) = some "WXYZ9876" := by
  have h := (extract_uppercases_only [("invite", "wxyz9876")] "wxyz9876"
    (by decide) (by decide)).1
  rw [h]
  decide

/-! ### C2 -/

/-- C2 counterexample: invite code row 11 belongs to tenant 7; deleting it
scoped to tenant 8 reports success (`ok`, the handler reaches its success
notification) and the row is still present — there is no
NotFound/Unauthorized failure. -/
theorem delete_crossTenant_counterexample :
    handleDeleteInviteCode dbStaffCode 11 8 = (Except.ok (), dbStaffCode) ∧
    staffCodeRow ∈ dbStaffCode.inviteCodes ∧
    staffCodeRow.id = 11 ∧ staffCodeRow.business_id = 7 ∧ (7 : Nat) ≠ 8 :=
  ⟨by decide, by decide, by decide, by decide, by decide⟩

/-- C2 amended: the tenant filter is part of the delete predicate, so a
cross-tenant delete never removes the row — but the operation always
reports success (a zero-row delete is not an error), never
NotFound/Unauthorized.  Rows are removed exactly when both id and tenant
match. -/
theorem delete_tenant_scoped (db : DB) (codeId businessId : Nat) :
    (handleDeleteInviteCode db codeId businessId).1 = Except.ok () ∧
    (∀ row ∈ db.inviteCodes, row.business_id ≠ businessId →
      row ∈ (handleDeleteInviteCode db codeId businessId).2.inviteCodes) ∧
    (∀ row ∈ (handleDeleteInviteCode db codeId businessId).2.inviteCodes,
      row ∈ db.inviteCodes ∧ ¬(row.id = codeId ∧ row.business_id = businessId)) := by
  refine ⟨rfl, ?_, ?_⟩
  · intro row hrow hbid
    simp only [handleDeleteInviteCode, List.mem_filter]
    refine ⟨hrow, ?_⟩
    simp [hbid]
  · intro row hrow
    simp only [handleDeleteInviteCode, List.mem_filter] at hrow
    refine ⟨hrow.1, ?_⟩
    have hne := hrow.2
    simp at hne
    exact fun hc => hne.elim (fun h => h hc.1) (fun h => h hc.2)

/-- Witness for C2 amended: the cross-tenant delete of row 11 scoped to
tenant 8 reports success and keeps the row. -/
theorem delete_tenant_scoped_witness :
    (handleDeleteInviteCode dbStaffCode 11 8).1 = Except.ok () ∧
    staffCodeRow ∈ (handleDeleteInviteCode dbStaffCode 11 8).2.inviteCodes :=
  ⟨(delete_tenant_scoped dbStaffCode 11 8).1,
   (delete_tenant_scoped dbStaffCode 11 8).2.1 staffCodeRow (by decide) (by decide)⟩

/-! ### C3 -/

/-- C3 counterexample: at the instant of equality `now = expires_at`
(row 11 expires at 1000), validation succeeds instead of failing with the
expired error — the code uses a strict `now > expiresAt` comparison. -/
theorem validate_at_expiry_counterexample :
    validateInviteCode dbStaffCode "ABCD1234" 1000 = Except.ok staffCodeRow ∧
    staffCodeRow.expires_at = 1000 :=
  ⟨by decide, by decide⟩

/-- C3 amended: `validateInviteCode` performs the format check, the
existence lookup, the consumed check and the expiry check in this order,
each short-circuiting with its own error — but the expiry check fails
only when `now() > expires_at` strictly; at `now() = expires_at` the
credential is still accepted. -/
theorem validate_check_order (db : DB) (code : String) (now : Int) :
    (isValidInviteCodeFormat code = false →
      validateInviteCode db code now = Except.error
        "Invalid invite code format. Codes must be 8 characters (4 letters + 4 numbers)") ∧
    (isValidInviteCodeFormat code = true → lookupInviteCode db code = none →
      validateInviteCode db code now = Except.error "Invalid invite code") ∧
    (∀ row, isValidInviteCodeFormat code = true → lookupInviteCode db code = some row →
      row.used_at.isSome = true →
      validateInviteCode db code now = Except.error "This invite code has already been used") ∧
    (∀ row, isValidInviteCodeFormat code = true → lookupInviteCode db code = some row →
      row.used_at = none → row.expires_at < now →
      validateInviteCode db code now = Except.error "This invite code has expired") ∧
    (∀ row, isValidInviteCodeFormat code = true → lookupInviteCode db code = some row →
      row.used_at = none → now ≤ row.expires_at →
      validateInviteCode db code now = Except.ok row) := by
  refine ⟨?_, ?_, ?_, ?_, ?_⟩
  · intro hfmt
    simp [validateInviteCode, hfmt]
  · intro hfmt hlk
    simp [validateInviteCode, hfmt, hlk]
  · intro row hfmt hlk hused
    simp [validateInviteCode, hfmt, hlk, hused]
  · intro row hfmt hlk hused hexp
    simp [validateInviteCode, hfmt, hlk, hused, hexp]
  · intro row hfmt hlk hused hexp
    simp [validateInviteCode, hfmt, hlk, hused, not_lt.mpr hexp]

/-- Witness for C3 amended: the pending row 11 validates successfully
strictly before expiry. -/
theorem validate_check_order_witness :
    validateInviteCode dbStaffCode "ABCD1234" 900 = Except.ok staffCodeRow :=
  (validate_check_order dbStaffCode "ABCD1234" 900).2.2.2.2 staffCodeRow
    (by decide) (by decide) (by decide) (by decide)

/-! ### C4 -/

/-- The only error the modelled identity provider produces is the
duplicate-email rejection. -/
theorem signUp_error_msg (db : DB) (email : String) (newId : Nat) (msg : String)
    (h : signUp db email newId = Except.error msg) : msg = "User already registered" := by
  unfold signUp at h
  split at h
  · exact (Except.error.inj h).symm
  · exact absurd h (by simp)

/-- C4: for an invitation with a (nonempty) bound email, redemption gets
past the email-binding check exactly when the recipient email equals the
bound email case-insensitively: on a case-insensitive match the call never
produces the email-mismatch error, and on any other email it fails with
the email-mismatch error with the store untouched — before any account is
created.  (A bound email that is the empty string is excluded: JS
truthiness skips the check for it, and the UI never persists one — an
empty email input is converted to undefined before `createInviteCode`.) -/
theorem useInviteCode_email_binding (db : DB) (code : String) (userData : UserData)
    (newId : Nat) (now : Int) (pf mf : Bool) (row : InviteCodeRow) (be : String)
    (hval : validateInviteCode db code now = Except.ok row)
    (hbe : row.email = some be) (hne : be ≠ "") :
    (jsToLower be = jsToLower userData.email →
      (useInviteCode db code userData newId now pf mf).1 ≠
        Except.error "This invite code is for a different email address") ∧
    (jsToLower be ≠ jsToLower userData.email →
      useInviteCode db code userData newId now pf mf =
        (Except.error "This invite code is for a different email address", db)) := by
  constructor
  · intro heq
    have hmm : emailMismatchCheck row.email userData.email = false := by
      rw [hbe]
      simp [emailMismatchCheck, heq]
    simp only [useInviteCode, hval, hmm, Bool.false_eq_true, if_false]
    cases hu : single (db.users.filter (fun r => r.email == userData.email)) with
    | some u =>
      simp [hu]
    | none =>
      cases hs : signUp db userData.email newId with
      | error msg =>
        have hmsg := signUp_error_msg db userData.email newId msg hs
        subst hmsg
        simp [hu, hs]
      | ok pair =>
        obtain ⟨authUser, db1⟩ := pair
        cases hp : (pf || db1.users.any (fun r => r.id == authUser.id)) with
        | true =>
          simp [hu, hs, hp]
        | false =>
          cases mf <;> simp [hu, hs, hp]
  · intro hne'
    have hmm : emailMismatchCheck row.email userData.email = true := by
      rw [hbe]
      simp [emailMismatchCheck, bne_iff_ne, hne, hne']
    simp only [useInviteCode, hval, hmm, if_true]

/-- Witness for C4: bound email `a@x.com` — recipient `A@X.com` (case
change only) passes the binding check, recipient `new@x.com` fails with
the email-mismatch error and an unchanged store. -/
theorem useInviteCode_email_binding_witness :
    ((useInviteCode dbBoundCode "EFGH5678"
        { email := "A@X.com", password := "Password1", firstName := "Nia", lastName := "New" }
        2 900 false false).1 ≠
      Except.error "This invite code is for a different email address") ∧
    (useInviteCode dbBoundCode "EFGH5678" newUserData 2 900 false false =
      (Except.error "This invite code is for a different email address", dbBoundCode)) :=
  ⟨(useInviteCode_email_binding dbBoundCode "EFGH5678"
      { email := "A@X.com", password := "Password1", firstName := "Nia", lastName := "New" }
      2 900 false false boundCodeRow "a@x.com" (by decide) (by decide) (by decide)).1
      (by decide),
   (useInviteCode_email_binding dbBoundCode "EFGH5678" newUserData
      2 900 false false boundCodeRow "a@x.com" (by decide) (by decide) (by decide)).2
      (by decide)⟩

/-! ### C10 -/

/-- C10 counterexample: with TWO pending, unexpired token invitations for
tenant 7 and `invitee@x.com` already present, `createInvitation` for that
same tenant and email succeeds and persists a third row — the `.single()`
duplicate lookup returns no data when several rows match, so the guard is
bypassed. -/
theorem createInvitation_twoPending_counterexample :
    (pendingInvitations dbTwoInvites 7 "invitee@x.com" 900).length = 2 ∧
    (createInvitation dbTwoInvites (some ownerAuth) 7 "invitee@x.com" UserRole.staff
        "Fey" "Lin" "tok-23" 23 900).1 = Except.ok ("tok-23", 900 + 7 * msPerDay) ∧
    ((createInvitation dbTwoInvites (some ownerAuth) 7 "invitee@x.com" UserRole.staff
        "Fey" "Lin" "tok-23" 23 900).2.invitations.length) = 3 :=
  ⟨by decide, by decide, by decide⟩

/-- C10 amended: when EXACTLY ONE pending, unexpired token invitation
exists for the tenant and email (the only state the sequential creation
path can produce), `createInvitation` fails with the already-sent error
and persists nothing; the duplicate lookup uses `.single()`, whose
no-data-on-multiple-rows semantics bypasses the guard when two or more
pending invitations exist. -/
theorem createInvitation_duplicate_guard (db : DB) (auth : Option AuthUser)
    (businessId : Nat) (email : String) (role : UserRole) (fn ln token : String)
    (newRowId : Nat) (now : Int) (profile : UserRow)
    (hprof : getCurrentUserProfile db auth = some profile)
    (hbiz : profile.business_id = some businessId)
    (hrole : canManageTeam profile.role = true)
    (hnou : single (db.users.filter (fun r => r.email == email)) = none)
    (hone : (pendingInvitations db businessId email now).length = 1) :
    createInvitation db auth businessId email role fn ln token newRowId now =
      (Except.error "An invitation has already been sent to this email", db) := by
  obtain ⟨inv, hinv⟩ := List.length_eq_one.mp hone
  have hsingle : single (pendingInvitations db businessId email now) = some inv := by
    rw [hinv]
    rfl
  simp [createInvitation, hprof, hbiz, hrole, hnou, hsingle]

/-- Witness for C10 amended: with the single pending invitation `tok-21`
present, re-creating for the same tenant and email fails and the store is
unchanged. -/
theorem createInvitation_duplicate_guard_witness :
    createInvitation dbOneInvite (some ownerAuth) 7 "invitee@x.com" UserRole.staff
        "Fey" "Lin" "tok-23" 23 900 =
      (Except.error "An invitation has already been sent to this email", dbOneInvite) :=
  createInvitation_duplicate_guard dbOneInvite (some ownerAuth) 7 "invitee@x.com"
    UserRole.staff "Fey" "Lin" "tok-23" 23 900 ownerRow
    (by decide) (by decide) (by decide) (by decide) (by decide)

/-! ### C1 -/

/-- C1 counterexample: an owner of tenant 7 calls both creation functions
with target role `owner`; both succeed and persist an invitation row whose
role is `owner` — no rejection happens. -/
theorem create_owner_invitation_counterexample :
    ((createInviteCode baseDB (some ownerAuth) 7 UserRole.owner none 7
        (fun _ => 0) 31 900).1 = Except.ok "AAAA0000") ∧
    (((createInviteCode baseDB (some ownerAuth) 7 UserRole.owner none 7
        (fun _ => 0) 31 900).2.inviteCodes.any
          (fun r => r.role == UserRole.owner && r.business_id == 7)) = true) ∧
    ((createInvitation baseDB (some ownerAuth) 7 "mia@x.com" UserRole.owner
        "Mia" "Major" "tok-41" 41 900).1 = Except.ok ("tok-41", 900 + 7 * msPerDay)) ∧
    (((createInvitation baseDB (some ownerAuth) 7 "mia@x.com" UserRole.owner
        "Mia" "Major" "tok-41" 41 900).2.invitations.any
          (fun r => r.role == UserRole.owner && r.business_id == 7)) = true) := by
  refine ⟨?_, ?_, by decide, by decide⟩
  · rw [createInviteCode_baseDB_eval]
  · rw [createInviteCode_baseDB_eval]
    decide

/-- C1 amended: neither `createInviteCode` nor `createInvitation` validates
the TARGET role — only the caller is checked (member of the tenant with
role owner or manager).  Any target role, `owner` included, is accepted
and the invitation row is persisted with that role; only the UI select
restricts the offered choices to manager and staff. -/
theorem create_invitation_any_target_role (db : DB) (auth : AuthUser)
    (businessId : Nat) (role : UserRole) (email : Option String)
    (expiryDays : Int) (random : Nat → ℚ) (newRowId : Nat) (now : Int)
    (profile : UserRow) (code : String)
    (hprof : single (db.users.filter (fun r => r.id == auth.id)) = some profile)
    (hbiz : profile.business_id = some businessId)
    (hrole : (profile.role == UserRole.owner || profile.role == UserRole.manager) = true)
    (hcode : findFreshCode db random 0 10 = Except.ok code)
    (email2 : String) (fn ln token : String) (newRowId2 : Nat) (profile2 : UserRow)
    (hprof2 : getCurrentUserProfile db (some auth) = some profile2)
    (hbiz2 : profile2.business_id = some businessId)
    (hrole2 : canManageTeam profile2.role = true)
    (hnou : single (db.users.filter (fun r => r.email == email2)) = none)
    (hnoi : single (pendingInvitations db businessId email2 now) = none) :
    (createInviteCode db (some auth) businessId role email expiryDays random newRowId now =
      (Except.ok code, { db with inviteCodes := db.inviteCodes ++
        [{ id := newRowId, code := code, role := role, email := email,
           business_id := businessId, created_by := some auth.id,
           used_by := none, used_at := none,
           expires_at := now + expiryDays * msPerDay, created_at := now }] })) ∧
    (createInvitation db (some auth) businessId email2 role fn ln token newRowId2 now =
      (Except.ok (token, now + 7 * msPerDay), { db with invitations := db.invitations ++
        [{ id := newRowId2, business_id := businessId, email := email2, role := role,
           invited_by := some profile2.id, token := token,
           expires_at := now + 7 * msPerDay, accepted_at := none,
           created_at := now }] })) := by
  constructor
  · simp [createInviteCode, hprof, hbiz, hrole, hcode]
  · simp [createInvitation, hprof2, hbiz2, hrole2, hnou, hnoi]

/-- Witness for C1 amended, at target role `owner`: the owner of tenant 7
creates both an owner short code and an owner token invitation. -/
theorem create_invitation_any_target_role_witness :
    (createInviteCode baseDB (some ownerAuth) 7 UserRole.owner none 7
        (fun _ => 0) 31 900 =
      (Except.ok "AAAA0000", { baseDB with inviteCodes :=
        [{ id := 31, code := "AAAA0000", role := UserRole.owner, email := none,
           business_id := 7, created_by := some 1, used_by := none, used_at := none,
           expires_at := 900 + 7 * msPerDay, created_at := 900 }] })) ∧
    (createInvitation baseDB (some ownerAuth) 7 "mia@x.com" UserRole.owner
        "Mia" "Major" "tok-41" 41 900 =
      (Except.ok ("tok-41", 900 + 7 * msPerDay), { baseDB with invitations :=
        [{ id := 41, business_id := 7, email := "mia@x.com", role := UserRole.owner,
           invited_by := some 1, token := "tok-41",
           expires_at := 900 + 7 * msPerDay, accepted_at := none,
           created_at := 900 }] })) := by
  have h := create_invitation_any_target_role baseDB ownerAuth 7 UserRole.owner none
    7 (fun _ => 0) 31 900 ownerRow "AAAA0000"
    (by decide) (by decide) (by decide) findFreshCode_baseDB_zero
    "mia@x.com" "Mia" "Major" "tok-41" 41 ownerRow
    (by decide) (by decide) (by decide) (by decide) (by decide)
  simpa [baseDB, ownerAuth, ownerRow] using h

/-! ### C8 -/

/-- C8 counterexample: `expiryDays` is not validated; with a
caller-supplied `expiryDays = 0` the creation succeeds and the stored
`expires_at` equals the creation time — not strictly later. -/
theorem createInviteCode_zero_expiry_counterexample :
    ((createInviteCode baseDB (some ownerAuth) 7 UserRole.staff none 0
        (fun _ => 0) 31 900).1 = Except.ok "AAAA0000") ∧
    (((createInviteCode baseDB (some ownerAuth) 7 UserRole.staff none 0
        (fun _ => 0) 31 900).2.inviteCodes.any
          (fun r => r.code == "AAAA0000" && r.expires_at == r.created_at)) = true) := by
  constructor
  · rw [createInviteCode_baseDB_eval]
  · rw [createInviteCode_baseDB_eval]
    decide

/-- C8 amended: every row added by `createInviteCode` has
`expires_at = now + expiryDays` days, which is strictly later than the
creation time exactly when `expiryDays ≥ 1` (the UI offers 1–30); every
row added by `createInvitation` has `expires_at = now + 7` days, always
strictly later. -/
theorem invite_expiry_future (db : DB) (auth : Option AuthUser) (businessId : Nat)
    (role : UserRole) (email : Option String) (expiryDays : Int) (random : Nat → ℚ)
    (newRowId : Nat) (now : Int) (hd : 1 ≤ expiryDays)
    (email2 : String) (fn ln token : String) (newRowId2 : Nat) :
    (∀ row ∈ (createInviteCode db auth businessId role email expiryDays random
        newRowId now).2.inviteCodes,
      row ∈ db.inviteCodes ∨ (row.created_at = now ∧ now < row.expires_at)) ∧
    (∀ row ∈ (createInvitation db auth businessId email2 role fn ln token
        newRowId2 now).2.invitations,
      row ∈ db.invitations ∨
        (row.created_at = now ∧ row.expires_at = now + 7 * msPerDay ∧
          now < row.expires_at)) := by
  have hms : (0 : Int) < msPerDay := by norm_num [msPerDay]
  constructor
  · intro row hrow
    unfold createInviteCode at hrow
    repeat' split at hrow
    all_goals simp_all
    rcases hrow with hl | hr
    · exact Or.inl hl
    · subst hr
      refine Or.inr ⟨rfl, ?_⟩
      show now < now + expiryDays * msPerDay
      have : 0 < expiryDays * msPerDay := mul_pos (by omega) hms
      omega
  · intro row hrow
    unfold createInvitation at hrow
    repeat' split at hrow
    all_goals simp_all
    rcases hrow with hl | hr
    · exact Or.inl hl
    · subst hr
      refine Or.inr ⟨rfl, rfl, ?_⟩
      show now < now + 7 * msPerDay
      omega

/-- Witness for C8 amended at `expiryDays = 7`: the created short-code row
expires strictly after creation, and so does the created token row. -/
theorem invite_expiry_future_witness :
    (∀ row ∈ (createInviteCode baseDB (some ownerAuth) 7 UserRole.staff none 7
        (fun _ => 0) 31 900).2.inviteCodes,
      row ∈ baseDB.inviteCodes ∨ (row.created_at = 900 ∧ 900 < row.expires_at)) ∧
    (∀ row ∈ (createInvitation baseDB (some ownerAuth) 7 "mia@x.com" UserRole.staff
        "Mia" "Major" "tok-41" 41 900).2.invitations,
      row ∈ baseDB.invitations ∨
        (row.created_at = 900 ∧ row.expires_at = 900 + 7 * msPerDay ∧
          900 < row.expires_at)) :=
  invite_expiry_future baseDB (some ownerAuth) 7 UserRole.staff none 7
    (fun _ => 0) 31 900 (by norm_num) "mia@x.com" "Mia" "Major" "tok-41" 41

/-! ### C6 -/

/-- C6 counterexample: a first redemption of code `ABCD1234` by
`new@x.com` whose profile insert fails leaves the orphan-identity state
(identity created, no member row, code still pending).  Retrying the
redemption with the same credential and the same recipient email does NOT
succeed: the membership write is a plain insert (not an upsert) and the
retry re-runs `signUp`, which rejects the duplicate email. -/
theorem retryRedeem_counterexample :
    useInviteCode dbStaffCode "ABCD1234" newUserData 2 900 true false =
      (Except.error "Profile creation failed: insert error", dbOrphanIdentity) ∧
    useInviteCode dbOrphanIdentity "ABCD1234" newUserData 3 900 false false =
      (Except.error "Account creation failed: User already registered", dbOrphanIdentity) ∧
    (dbOrphanIdentity.users.any (fun r => r.email == "new@x.com")) = false ∧
    (dbOrphanIdentity.inviteCodes.any (fun r => r.code == "ABCD1234" && r.used_at.isNone)) = true :=
  ⟨by decide, by decide, by decide, by decide⟩

/-- C6 amended: after ProfileProvisioningFailed (an identity already
exists for the recipient email), retrying `useInviteCode` with the same
credential and email NEVER succeeds — it fails (at the latest at the
duplicate sign-up) with the store completely unchanged, so no duplicate
identity is created; the repair-by-upsert the claim describes is absent
from this revision of the module (the membership write is a plain
insert). -/
theorem retry_after_orphan (db : DB) (code : String) (userData : UserData)
    (newId : Nat) (now : Int) (pf mf : Bool)
    (hid : (db.authUsers.any (fun u => u.email == userData.email)) = true) :
    (useInviteCode db code userData newId now pf mf).2 = db ∧
    ∀ ids, (useInviteCode db code userData newId now pf mf).1 ≠ Except.ok ids := by
  have hs : signUp db userData.email newId = Except.error "User already registered" := by
    simp [signUp, hid]
  unfold useInviteCode
  cases hv : validateInviteCode db code now with
  | error e => simp
  | ok row =>
    cases hmm : emailMismatchCheck row.email userData.email with
    | true => simp [hmm]
    | false =>
      cases hu : single (db.users.filter (fun r => r.email == userData.email)) with
      | some u => simp [hmm, hu]
      | none => simp [hmm, hu, hs]

/-- Witness for C6 amended at the concrete orphan-identity store. -/
theorem retry_after_orphan_witness :
    (useInviteCode dbOrphanIdentity "ABCD1234" newUserData 3 900 false false).2 =
      dbOrphanIdentity ∧
    (useInviteCode dbOrphanIdentity "ABCD1234" newUserData 3 900 false false).1 ≠
      Except.ok (3, 7) :=
  ⟨(retry_after_orphan dbOrphanIdentity "ABCD1234" newUserData 3 900 false false
      (by decide)).1,
   (retry_after_orphan dbOrphanIdentity "ABCD1234" newUserData 3 900 false false
      (by decide)).2 (3, 7)⟩

/-! ### C5 -/

/-- C5 counterexample: in the token acceptance flow, after identity and
membership creation both succeed, a failing mark-accepted update makes
the WHOLE call fail (the thrown update error), even though the membership
row persists; the same call with a working update succeeds — so the claim
that a mark-consumed failure never fails the redemption call is false for
this flow. -/
theorem accept_update_failure_counterexample :
    ((handleAcceptInvitation dbOneInvite 21 "invitee@x.com" UserRole.staff
        acceptForm 2 900 false true).1 = Except.error "accepted_at update error") ∧
    (((handleAcceptInvitation dbOneInvite 21 "invitee@x.com" UserRole.staff
        acceptForm 2 900 false true).2.users.any
          (fun r => r.id == 2 && r.business_id == some 7 && r.role == UserRole.staff)) = true) ∧
    ((handleAcceptInvitation dbOneInvite 21 "invitee@x.com" UserRole.staff
        acceptForm 2 900 false false).1 = Except.ok ()) :=
  ⟨by decide, by decide, by decide⟩

/-- C5 amended: in the short-code flow (`useInviteCode`) a mark-used
failure is indeed non-fatal — the call returns exactly what it returns
with a working update (the new member id and tenant id), the membership
table is the same, and only the invite-code bookkeeping is left untouched.
In the token flow (`handleAcceptInvitation`) the same failure aborts the
call with the update error, although the already-created membership is not
rolled back. -/
theorem markConsumed_failure_semantics
    (db : DB) (code : String) (userData : UserData) (newId : Nat) (now : Int) (pf : Bool)
    (invitationId : Nat) (invitationEmail : String) (invitationRole : UserRole)
    (values : AcceptanceForm) (newId2 : Nat)
    (hacc : (handleAcceptInvitation db invitationId invitationEmail invitationRole
        values newId2 now false false).1 = Except.ok ()) :
    ((useInviteCode db code userData newId now pf true).1 =
      (useInviteCode db code userData newId now pf false).1) ∧
    ((useInviteCode db code userData newId now pf true).2.users =
      (useInviteCode db code userData newId now pf false).2.users) ∧
    ((useInviteCode db code userData newId now pf true).2.inviteCodes = db.inviteCodes) ∧
    ((handleAcceptInvitation db invitationId invitationEmail invitationRole
        values newId2 now false true).1 = Except.error "accepted_at update error") ∧
    ((handleAcceptInvitation db invitationId invitationEmail invitationRole
        values newId2 now false true).2.users =
      (handleAcceptInvitation db invitationId invitationEmail invitationRole
        values newId2 now false false).2.users) := by
  have hA : ((useInviteCode db code userData newId now pf true).1 =
        (useInviteCode db code userData newId now pf false).1) ∧
      ((useInviteCode db code userData newId now pf true).2.users =
        (useInviteCode db code userData newId now pf false).2.users) ∧
      ((useInviteCode db code userData newId now pf true).2.inviteCodes = db.inviteCodes) := by
    unfold useInviteCode
    cases hv : validateInviteCode db code now with
    | error e => simp
    | ok row =>
      cases hmm : emailMismatchCheck row.email userData.email with
      | true => simp [hmm]
      | false =>
        cases hu : single (db.users.filter (fun r => r.email == userData.email)) with
        | some u => simp [hmm, hu]
        | none =>
          cases hs : signUp db userData.email newId with
          | error msg => simp [hmm, hu, hs]
          | ok pair =>
            obtain ⟨authUser, db1⟩ := pair
            have hic : db1.inviteCodes = db.inviteCodes := by
              have hs' := hs
              unfold signUp at hs'
              split at hs'
              · exact absurd hs' (by simp)
              · have h2 := congrArg Prod.snd (Except.ok.inj hs')
                simp only [] at h2
                rw [← h2]
            cases hp : (pf || db1.users.any (fun r => r.id == authUser.id)) with
            | true => simp [hmm, hu, hs, hp, hic]
            | false => simp [hmm, hu, hs, hp, hic]
  have hB : ((handleAcceptInvitation db invitationId invitationEmail invitationRole
        values newId2 now false true).1 = Except.error "accepted_at update error") ∧
      ((handleAcceptInvitation db invitationId invitationEmail invitationRole
        values newId2 now false true).2.users =
        (handleAcceptInvitation db invitationId invitationEmail invitationRole
          values newId2 now false false).2.users) := by
    unfold handleAcceptInvitation at hacc ⊢
    cases hs : signUp db invitationEmail newId2 with
    | error msg =>
      rw [hs] at hacc
      exact absurd hacc (by simp)
    | ok pair =>
      obtain ⟨authUser, db1⟩ := pair
      rw [hs] at hacc
      dsimp only at hacc ⊢
      cases hd : single (db1.invitations.filter (fun r => r.id == invitationId)) with
      | none =>
        rw [hd] at hacc
        exact absurd hacc (by simp)
      | some det =>
        rw [hd] at hacc
        dsimp only at hacc ⊢
        cases hp : (false || db1.users.any (fun r => r.id == authUser.id)) with
        | true =>
          rw [hp] at hacc
          exact absurd hacc (by simp)
        | false =>
          rw [hp] at hacc
          simp [hs, hd, hp]
  exact ⟨hA.1, hA.2.1, hA.2.2, hB.1, hB.2⟩

/-- Witness for C5 amended at the concrete token-invitation store (and the
short-code store for the non-fatal part). -/
theorem markConsumed_failure_semantics_witness :
    ((useInviteCode dbOneInvite "ABCD1234" newUserData 2 900 false true).1 =
      (useInviteCode dbOneInvite "ABCD1234" newUserData 2 900 false false).1) ∧
    ((handleAcceptInvitation dbOneInvite 21 "invitee@x.com" UserRole.staff
        acceptForm 2 900 false true).1 = Except.error "accepted_at update error") :=
  ⟨(markConsumed_failure_semantics dbOneInvite "ABCD1234" newUserData 2 900 false
      21 "invitee@x.com" UserRole.staff acceptForm 2 (by decide)).1,
   (markConsumed_failure_semantics dbOneInvite "ABCD1234" newUserData 2 900 false
      21 "invitee@x.com" UserRole.staff acceptForm 2 (by decide)).2.2.2.1⟩

end HealthcareMVP
